import Mathlib

set_option maxRecDepth 100000

/-!
Verification of the page-validation / execution-control plane of the
Microsoft-Rewards-Bot repository, shallowly embedded in Lean 4.

The embedding follows `src/util/validation/PageValidator.ts` and the
Discord command surface (`DiscordBot`); the execution controller
(`src/dashboard/BotController`) is not among the provided sources and is
modelled from the specification where a claim needs it.

A browser page handle is modelled by the observations the validator makes
of it; each observation is `Except`-valued so that a throwing call
(`page.url()`, `page.content()`, cheerio parsing, text extraction) is
representable.  JavaScript promise `.catch` handlers and `try`/`catch`
blocks become explicit matches on the `Except` value.
-/

/-- Result shape returned by `isInvalidPage`: `{ invalid: boolean; reason?: string }`. -/
structure PageCheckResult where
  invalid : Bool
  reason : Option String
deriving DecidableEq, Repr

deriving instance DecidableEq for Except

/-- Observable behaviour of a Playwright page handle, as consumed by
`PageValidator`.  `url` models `page.url()` (a throw is `Except.error`,
an `undefined` result is `Except.ok none`); `rawContent` models
`page.content()` before its `.catch` handler; `neterrorCount` models
`$("body.neterror").length` after `load(html)` (a parse/query throw is
`Except.error`); `bodyText` models `$("body").text()`. -/
structure Page where
  url : Except String (Option String)
  rawContent : Except String String
  neterrorCount : Except String Nat
  bodyText : Except String String
deriving DecidableEq, Repr

/-- JavaScript truthiness of a possibly-undefined string: `undefined`,
`null` and `""` are falsy, every other string is truthy. -/
def jsTruthy : Option String → Bool
  | none => false
  | some s => !(s == "")

/-- Embedding of JavaScript `s.startsWith(pre)`: prefix test on the
character sequence. -/
def strStartsWith (s pre : String) : Bool :=
  pre.data.isPrefixOf s.data

/-- Embedding of JavaScript `hay.includes(needle)`: substring containment. -/
def strContains (hay needle : String) : Bool :=
  (List.range (hay.data.length + 1)).any fun i => needle.data.isPrefixOf (hay.data.drop i)

/-- `strContains` decides exactly substring (list-infix) containment. -/
theorem strContains_characterization (hay needle : String) :
    strContains hay needle = true ↔ needle.data <:+: hay.data := by
  unfold strContains
  simp only [List.any_eq_true, List.mem_range, List.isPrefixOf_iff_prefix]
  constructor
  · rintro ⟨i, _, hpre⟩
    exact List.infix_iff_prefix_suffix.mpr ⟨hay.data.drop i, hpre, List.drop_suffix i hay.data⟩
  · intro hinf
    rcases hinf with ⟨s, t, hst⟩
    refine ⟨s.length, ?_, ?_⟩
    · have hlen : (s ++ needle.data ++ t).length = hay.data.length := by rw [hst]
      simp only [List.length_append] at hlen
      omega
    · rw [← hst, List.append_assoc, List.drop_left]
      exact ⟨t, rfl⟩

/-- The fixed catalogue of HTTP/network error signatures scanned by
`isInvalidPage` (source order preserved; first match wins). -/
def errorPatterns : List String :=
  ["HTTP ERROR 400",
   "HTTP ERROR 403",
   "HTTP ERROR 404",
   "HTTP ERROR 500",
   "HTTP ERROR 502",
   "HTTP ERROR 503",
   "This page isn\x27t working",
   "This page is not working",
   "This site can\x27t be reached",
   "ERR_CONNECTION_REFUSED",
   "ERR_NAME_NOT_RESOLVED",
   "ERR_INTERNET_DISCONNECTED",
   "ERR_NETWORK_CHANGED",
   "ERR_CONNECTION_RESET",
   "ERR_CONNECTION_TIMED_OUT"]

/-- `page.content().catch(() => "")`: a content-retrieval failure is
swallowed and replaced by the empty string. -/
def contentAfterCatch (p : Page) : String :=
  match p.rawContent with
  | Except.ok s => s
  | Except.error _ => ""

/-- The body of `isInvalidPage`'s `try` block, in the `Except` monad:
an `Except.error` is a JavaScript exception escaping to the outer
`catch`.  Check order follows the source: blank URL, browser error
scheme, degenerate content (after the content `.catch`), `body.neterror`
class, then the signature scan over raw markup and body text. -/
def isInvalidPageE (p : Page) : Except String PageCheckResult :=
  match p.url with
  | Except.error e => Except.error e
  | Except.ok urlOpt =>
    if !(jsTruthy urlOpt) || urlOpt.getD "" == "about:blank" || urlOpt.getD "" == "" then
      Except.ok { invalid := true, reason := some "blank page" }
    else if strStartsWith (urlOpt.getD "") "chrome-error://"
        || strStartsWith (urlOpt.getD "") "edge://" then
      Except.ok { invalid := true, reason := some "browser error page" }
    else if contentAfterCatch p == "" || (contentAfterCatch p).length < 100 then
      Except.ok { invalid := true, reason := some "empty page content" }
    else
      match p.neterrorCount with
      | Except.error e => Except.error e
      | Except.ok n =>
        if n > 0 then
          Except.ok { invalid := true, reason := some "network error" }
        else
          match p.bodyText with
          | Except.error e => Except.error e
          | Except.ok bodyText =>
            match List.find?
                (fun pat => strContains (contentAfterCatch p) pat || strContains bodyText pat)
                errorPatterns with
            | some pat =>
              Except.ok { invalid := true, reason := some ("HTTP/network error: " ++ pat) }
            | none => Except.ok { invalid := false, reason := none }

/-- `isInvalidPage` from `PageValidator.ts`: the `try` body with the
outer `catch` converting any escaped exception into an invalid result
whose reason is `page check failed: <message>`. -/
def isInvalidPage (p : Page) : PageCheckResult :=
  match isInvalidPageE p with
  | Except.ok r => r
  | Except.error e => { invalid := true, reason := some ("page check failed: " ++ e) }

/-- `isRewardsDomain` from `PageValidator.ts`. -/
def isRewardsDomain (url : String) : Bool :=
  strContains url "rewards.bing.com" || strContains url "rewards.microsoft.com"

/-- `isBingDomain` from `PageValidator.ts`. -/
def isBingDomain (url : String) : Bool :=
  strContains url "bing.com"

/-- The domain substrings accepted by `validateActivityDomain`
(the disjuncts of `isBingDomain(url) || isRewardsDomain(url)`). -/
def allowedDomains : List String :=
  ["bing.com", "rewards.bing.com", "rewards.microsoft.com"]

/-- Externally observable actions performed by the validator/recovery
functions, recorded as a trace. -/
inductive Effect where
  | logInfo (msg : String)
  | logWarn (msg : String)
  | logError (msg : String)
  | closePage
  | goto (url : String) (timeoutMs : Nat)
  | waitReady (timeoutMs : Nat)
  | runTaskBody
deriving DecidableEq, Repr

/-- Outcomes of the browser calls `validateAndRedirect` makes: whether
`page.goto`, `waitForPageReady` and `page.close` throw.  The latter two
are swallowed by `.catch` handlers in the source. -/
structure Env where
  gotoOutcome : Except String Unit
  waitReadyOutcome : Except String Unit
  closeOutcome : Except String Unit
deriving DecidableEq, Repr

/-- The reason string as interpolated by JavaScript: an absent reason
prints as "undefined". -/
def reasonText : Option String → String
  | some s => s
  | none => "undefined"

/-- `validateAndRedirect` from `PageValidator.ts`, returning its boolean
result together with the trace of effects it performed.  `page.close()`
and `waitForPageReady` failures are ignored by `.catch`; a `page.goto`
throw is caught, logged, and still yields `false`. -/
def validateAndRedirect (p : Page) (env : Env) (baseURL : String)
    (closeOnInvalid : Bool) : Bool × List Effect :=
  let result := isInvalidPage p
  if result.invalid then
    let warnLog := Effect.logWarn ("Invalid page detected: " ++ reasonText result.reason)
    if closeOnInvalid then
      (false, [warnLog, Effect.closePage])
    else
      let redirLog := Effect.logInfo "Redirecting to rewards home page..."
      match env.gotoOutcome with
      | Except.ok _ =>
        (false, [warnLog, redirLog, Effect.goto baseURL 15000, Effect.waitReady 10000])
      | Except.error e =>
        (false, [warnLog, redirLog, Effect.goto baseURL 15000,
                 Effect.logError ("Failed to redirect to rewards: " ++ e)])
  else
    (true, [])

/-- Modelled from the spec: the RecoveryProtocol caller pattern —
every task site runs its body only when the pre-check wrapper returned
`true` (spec §4.2: "The task body is never invoked after a failed
pre-check"); the task files making these calls are outside the provided
sources. -/
def runWithValidation (p : Page) (env : Env) (baseURL : String)
    (closeOnInvalid : Bool) (body : List Effect) : List Effect :=
  let r := validateAndRedirect p env baseURL closeOnInvalid
  if r.1 then r.2 ++ Effect.runTaskBody :: body else r.2

/-- Number of navigations (`page.goto` calls) in a trace. -/
def gotoCount (tr : List Effect) : Nat :=
  (tr.filter fun e => match e with | Effect.goto _ _ => true | _ => false).length

/-- `validateActivityDomain` from `PageValidator.ts`: reads `page.url()`
(uncaught, so a throwing handle propagates as `Except.error`), accepts
Bing/rewards domains, otherwise logs a warning and returns `false`. -/
def validateActivityDomain (p : Page) : Except String (Bool × List Effect) :=
  match p.url with
  | Except.error e => Except.error e
  | Except.ok urlOpt =>
    let url := urlOpt.getD ""
    if isBingDomain url || isRewardsDomain url then
      Except.ok (true, [])
    else
      Except.ok (false, [Effect.logWarn ("Unexpected domain after click: " ++ url)])

/-- A user id as it may appear in `config.discordBot.allowedUserIds`:
the comment in `DiscordBot.hasPermission` notes the config may hold
numbers as well as strings. -/
inductive ConfigId where
  | str (s : String)
  | num (n : Nat)
deriving DecidableEq, Repr

/-- JavaScript `String(id)` on a config user id. -/
def ConfigId.toJsString : ConfigId → String
  | ConfigId.str s => s
  | ConfigId.num n => toString n

/-- `DiscordBot.hasPermission`: `allowedUserIds` is
`config.discordBot?.allowedUserIds || []` (absent config ⇒ empty list);
an empty list allows every caller, otherwise the caller's id must be a
member of the string-converted list. -/
def hasPermission (allowedUserIds : Option (List ConfigId)) (userId : String) : Bool :=
  let ids := allowedUserIds.getD []
  if ids.length == 0 then
    true
  else
    ((ids.map ConfigId.toJsString).contains userId)

/-- Splitting a character list on a separator character; an empty input
gives one empty group, mirroring JavaScript `"".split(sep) = [""]`. -/
def splitOnChar (sep : Char) : List Char → List (List Char)
  | [] => [[]]
  | c :: cs =>
    if c = sep then
      [] :: splitOnChar sep cs
    else
      match splitOnChar sep cs with
      | [] => [[c]]
      | g :: gs => (c :: g) :: gs

/-- Embedding of JavaScript `s.split(sep)` for a single-character
separator. -/
def jsSplit (s : String) (sep : Char) : List String :=
  (splitOnChar sep s.data).map String.mk

/-- An account record as read by the Discord bot: the email plus its
credential payload (never displayed). -/
structure Account where
  email : String
  password : String
deriving DecidableEq, Repr

/-- The redaction lambda inside `DiscordBot.handleAccounts`:
`email.split("@")` destructured into local part and domain; both truthy
⇒ first two characters of the local part, a "***@" marker and the
domain; otherwise the fully redacted "***@***". -/
def redactEmail (email : String) : String :=
  match jsSplit email '@' with
  | loc :: domain :: _ =>
    if jsTruthy (some loc) && jsTruthy (some domain) then
      loc.take 2 ++ "***@" ++ domain
    else
      "***@***"
  | _ => "***@***"

/-- The account list rendered by `DiscordBot.handleAccounts`:
one line per account, `"<index+1>. <redacted email>"`. -/
def renderAccountList (accounts : List Account) : List String :=
  accounts.mapIdx fun idx acc => toString (idx + 1) ++ ". " ++ redactEmail acc.email

/-- Modelled from the spec: the ExecutionController / `BotController`
(`src/dashboard/BotController`, not among the provided sources).
Spec §4.3: states `Idle -> Starting -> Running -> Stopping -> Idle`;
the transition out of `Idle` is an atomic check-and-set. -/
inductive ControllerState where
  | Idle
  | Starting
  | Running
  | Stopping
deriving DecidableEq, Repr

/-- Modelled from the spec: the `{success, error?}` operation result
shape of the control plane. -/
structure OpResult where
  success : Bool
  error : Option String
deriving DecidableEq, Repr

/-- Modelled from the spec: `ExecutionController.start()` as an atomic
transition on the controller state.  A non-`Idle` state is rejected with
`"already running"` and no side effects; from `Idle` the launch is
attempted (`launchOk` is the supervised launch outcome): on success the
state commits to `Running`, on failure it returns to `Idle` with the
cause. -/
def ExecutionController.start (launchOk : Bool) :
    ControllerState → ControllerState × OpResult
  | ControllerState.Idle =>
    if launchOk then
      (ControllerState.Running, { success := true, error := none })
    else
      (ControllerState.Idle, { success := false, error := some "launch failed" })
  | s => (s, { success := false, error := some "already running" })

/-- A page sitting at `about:blank` whose every other observation
throws: the blank-URL check must decide before any content retrieval. -/
def pageBlankAllThrow : Page :=
  { url := Except.ok (some "about:blank"),
    rawContent := Except.error "content throw",
    neterrorCount := Except.error "parse throw",
    bodyText := Except.error "text throw" }

/-- A page whose `page.url()` call itself throws. -/
def pageUrlThrows : Page :=
  { url := Except.error "boom",
    rawContent := Except.ok "",
    neterrorCount := Except.ok 0,
    bodyText := Except.ok "" }

/-- A healthy-URL page whose `page.content()` call throws. -/
def pageContentThrows : Page :=
  { url := Except.ok (some "https://rewards.bing.com/"),
    rawContent := Except.error "content fetch failed",
    neterrorCount := Except.ok 0,
    bodyText := Except.ok "" }

/-- A page whose content carries both `ERR_CONNECTION_REFUSED` (listed
earlier in the catalogue) and `ERR_CONNECTION_RESET`. -/
def pageBothSignatures : Page :=
  { url := Except.ok (some "https://www.bing.com/x"),
    rawContent := Except.ok "<html><body>Some error happened: ERR_CONNECTION_REFUSED and then later ERR_CONNECTION_RESET appeared in this long body text padding padding</body></html>",
    neterrorCount := Except.ok 0,
    bodyText := Except.ok "" }

/-- A page whose content carries `ERR_CONNECTION_RESET` and no other
catalogue signature. -/
def pageOnlyReset : Page :=
  { url := Except.ok (some "https://www.bing.com/x"),
    rawContent := Except.ok "<html><body>Network trouble: ERR_CONNECTION_RESET was seen while loading this page, body text padding padding pad</body></html>",
    neterrorCount := Except.ok 0,
    bodyText := Except.ok "" }

/-- A healthy page with long, signature-free content. -/
def pageHealthy : Page :=
  { url := Except.ok (some "https://rewards.bing.com/"),
    rawContent := Except.ok "<html><body>Welcome to the rewards dashboard, everything loaded just fine today and this body easily clears one hundred characters of content.</body></html>",
    neterrorCount := Except.ok 0,
    bodyText := Except.ok "Welcome to the rewards dashboard" }

/-- A page that landed on a domain outside the allow-list. -/
def pageEvilDomain : Page :=
  { url := Except.ok (some "https://evil.com/"),
    rawContent := Except.ok "",
    neterrorCount := Except.ok 0,
    bodyText := Except.ok "" }

/-- Browser environment in which every call succeeds. -/
def envAllOk : Env :=
  { gotoOutcome := Except.ok (),
    waitReadyOutcome := Except.ok (),
    closeOutcome := Except.ok () }

/-- Browser environment in which the recovery `page.goto` throws. -/
def envNavFails : Env :=
  { gotoOutcome := Except.error "nav fail",
    waitReadyOutcome := Except.ok (),
    closeOutcome := Except.ok () }

/-! ## Theorems -/

/-- Helper: an exception escaping the `try` body surfaces as a
`page check failed` classification. -/
theorem isInvalidPage_of_errorE (p : Page) (e : String)
    (h : isInvalidPageE p = Except.error e) :
    isInvalidPage p = { invalid := true, reason := some ("page check failed: " ++ e) } := by
  unfold isInvalidPage
  rw [h]

/-- Helper: every invalid classification produced inside the `try` body
carries a reason. -/
theorem reason_of_invalidE (p : Page) (r : PageCheckResult)
    (h : isInvalidPageE p = Except.ok r) (hinv : r.invalid = true) :
    r.reason.isSome = true := by
  unfold isInvalidPageE at h
  repeat' split at h
  all_goals simp_all
  all_goals rw [← h] at hinv ⊢
  all_goals first
    | rfl
    | exact absurd hinv (by simp)

/-- C2: for every page handle, including ones whose URL retrieval,
content retrieval, parsing or text scan throws, `isInvalidPage`
(`checkPageHealth`) returns a `PageCheckResult` value and never
propagates an exception: every invalid classification carries a reason,
and an exception escaping the check chain is converted into
`invalid := true` with reason `page check failed: <message>`. -/
theorem isInvalidPage_never_throws (p : Page) :
    ((isInvalidPage p).invalid = true → ((isInvalidPage p).reason).isSome = true) ∧
    (∀ e, isInvalidPageE p = Except.error e →
      isInvalidPage p = { invalid := true, reason := some ("page check failed: " ++ e) }) := by
  constructor
  · intro hinv
    unfold isInvalidPage at hinv ⊢
    cases h : isInvalidPageE p with
    | ok r =>
      rw [h] at hinv
      exact reason_of_invalidE p r h hinv
    | error e => rfl
  · intro e h
    exact isInvalidPage_of_errorE p e h

theorem isInvalidPage_never_throws_witness :
    ((isInvalidPage pageUrlThrows).reason).isSome = true ∧
    isInvalidPage pageUrlThrows =
      { invalid := true, reason := some ("page check failed: " ++ "boom") } :=
  ⟨(isInvalidPage_never_throws pageUrlThrows).1 (by decide),
   (isInvalidPage_never_throws pageUrlThrows).2 "boom" (by decide)⟩

/-- C4: a page whose URL is unset, the empty string, or exactly
`about:blank` is classified `invalid := true, reason := "blank page"`;
the decision is taken before any content retrieval, so it holds whatever
the content, parse and text observations do (including throwing). -/
theorem blank_page_first (p : Page) (u : Option String)
    (hu : p.url = Except.ok u)
    (hblank : u = none ∨ u = some "" ∨ u = some "about:blank") :
    isInvalidPage p = { invalid := true, reason := some "blank page" } := by
  unfold isInvalidPage isInvalidPageE
  rw [hu]
  rcases hblank with h | h | h <;> subst h <;> simp [jsTruthy]

theorem blank_page_first_witness :
    isInvalidPage pageBlankAllThrow = { invalid := true, reason := some "blank page" } :=
  blank_page_first pageBlankAllThrow (some "about:blank") (by decide) (Or.inr (Or.inr rfl))

/-- C5 counterexample: a content-retrieval error is swallowed by the
`.catch(() => "")` on `page.content()`, so the reason is
"empty page content", not of the form "page check failed: …" as the
claim states. -/
theorem content_error_cex :
    isInvalidPage pageContentThrows =
      { invalid := true, reason := some "empty page content" } ∧
    strStartsWith (reasonText (isInvalidPage pageContentThrows).reason)
      "page check failed:" = false := by
  constructor
  · decide
  · decide

/-- C5 (amended): for a page past the URL checks, content shorter than
100 characters yields `invalid := true, reason := "empty page content"`;
a content-retrieval error is swallowed by the `.catch` fallback to the
empty string (hence also classified "empty page content"), while
"page check failed: …" is reserved for exceptions escaping the other
steps. -/
theorem empty_content_check :
    (∀ (p : Page) (u : String),
      p.url = Except.ok (some u) →
      jsTruthy (some u) = true →
      u ≠ "about:blank" →
      strStartsWith u "chrome-error://" = false →
      strStartsWith u "edge://" = false →
      (contentAfterCatch p).length < 100 →
      isInvalidPage p = { invalid := true, reason := some "empty page content" }) ∧
    (∀ (p : Page) (e : String), p.rawContent = Except.error e → contentAfterCatch p = "") := by
  constructor
  · intro p u hu htr hab hch hed hlen
    have hne : (u == "") = false := by
      cases hbe : u == ""
      · rfl
      · exact absurd htr (by simp [jsTruthy, hbe])
    have hab' : (u == "about:blank") = false := by simp [hab]
    unfold isInvalidPage isInvalidPageE
    rw [hu]
    simp [jsTruthy, htr, hne, hab', hch, hed, hlen]
  · intro p e h
    unfold contentAfterCatch
    rw [h]

theorem empty_content_check_witness :
    isInvalidPage pageContentThrows =
      { invalid := true, reason := some "empty page content" } ∧
    contentAfterCatch pageContentThrows = "" :=
  ⟨empty_content_check.1 pageContentThrows "https://rewards.bing.com/"
      (by decide) (by decide) (by decide) (by decide) (by decide) (by decide),
   empty_content_check.2 pageContentThrows "content fetch failed" (by decide)⟩

/-- Helper: when the check chain reaches its final, valid verdict, no
catalogue signature occurs in the page markup. -/
theorem no_signature_of_valid (p : Page) (r : PageCheckResult)
    (hE : isInvalidPageE p = Except.ok r) (hv : r.invalid = false) :
    ∀ pat ∈ errorPatterns, strContains (contentAfterCatch p) pat = false := by
  unfold isInvalidPageE at hE
  repeat' split at hE
  all_goals cases hE
  all_goals try (simp at hv)
  rename_i hfind
  rw [List.find?_eq_none] at hfind
  intro pat hp
  have hnp := hfind pat hp
  simp only [Bool.or_eq_true, not_or] at hnp
  have h1 := hnp.1
  cases hq : strContains (contentAfterCatch p) pat
  · rfl
  · exact absurd hq h1

/-- C6 counterexample: `pageBothSignatures` contains the literal
substring "ERR_CONNECTION_RESET", yet the returned reason names the
earlier catalogue entry "ERR_CONNECTION_REFUSED" (first match wins) and
does not mention the RESET signature at all. -/
theorem reset_signature_cex :
    strContains (contentAfterCatch pageBothSignatures) "ERR_CONNECTION_RESET" = true ∧
    isInvalidPage pageBothSignatures =
      { invalid := true, reason := some "HTTP/network error: ERR_CONNECTION_REFUSED" } ∧
    strContains (reasonText (isInvalidPage pageBothSignatures).reason)
      "ERR_CONNECTION_RESET" = false := by
  refine ⟨by decide, by decide, by decide⟩

/-- C6 (amended): a page whose content contains "ERR_CONNECTION_RESET"
is always classified invalid; the reason is
"HTTP/network error: ERR_CONNECTION_RESET" exactly when the page reaches
the signature scan and no earlier catalogue signature matches the markup
or the body text (first match wins). -/
theorem reset_signature_check :
    (∀ p : Page,
      strContains (contentAfterCatch p) "ERR_CONNECTION_RESET" = true →
      (isInvalidPage p).invalid = true) ∧
    (∀ (p : Page) (u bt : String),
      p.url = Except.ok (some u) →
      jsTruthy (some u) = true →
      u ≠ "about:blank" →
      strStartsWith u "chrome-error://" = false →
      strStartsWith u "edge://" = false →
      100 ≤ (contentAfterCatch p).length →
      p.neterrorCount = Except.ok 0 →
      p.bodyText = Except.ok bt →
      strContains (contentAfterCatch p) "ERR_CONNECTION_RESET" = true →
      (∀ pat ∈ errorPatterns.take 13,
        strContains (contentAfterCatch p) pat = false ∧ strContains bt pat = false) →
      isInvalidPage p =
        { invalid := true,
          reason := some ("HTTP/network error: " ++ "ERR_CONNECTION_RESET") }) := by
  constructor
  · intro p hc
    unfold isInvalidPage
    cases hE : isInvalidPageE p with
    | error e => rfl
    | ok r =>
      show r.invalid = true
      cases hb : r.invalid
      · have hnone := no_signature_of_valid p r hE hb "ERR_CONNECTION_RESET" (by decide)
        rw [hnone] at hc
        exact absurd hc (by simp)
      · rfl
  · intro p u bt hu htr hab hch hed hlen hnet hbt hc hno
    have hne : (u == "") = false := by
      cases hbe : u == ""
      · rfl
      · exact absurd htr (by simp [jsTruthy, hbe])
    have hab' : (u == "about:blank") = false := by simp [hab]
    have hempty : (contentAfterCatch p == "") = false := by
      cases hbe : contentAfterCatch p == ""
      · rfl
      · have h0 : contentAfterCatch p = "" := by simpa using hbe
        rw [h0] at hlen
        simp at hlen
    have hlt : ¬((contentAfterCatch p).length < 100) := by omega
    have hfind : List.find?
        (fun pat => strContains (contentAfterCatch p) pat || strContains bt pat)
        errorPatterns = some "ERR_CONNECTION_RESET" := by
      have hsplitL : errorPatterns =
          errorPatterns.take 13 ++ ["ERR_CONNECTION_RESET", "ERR_CONNECTION_TIMED_OUT"] := by
        decide
      rw [hsplitL, List.find?_append]
      have h1 : List.find?
          (fun pat => strContains (contentAfterCatch p) pat || strContains bt pat)
          (errorPatterns.take 13) = none := by
        rw [List.find?_eq_none]
        intro x hx
        have hx2 := hno x hx
        simp [hx2.1, hx2.2]
      rw [h1, Option.none_or]
      simp [List.find?, hc]
    unfold isInvalidPage isInvalidPageE
    rw [hu]
    simp [jsTruthy, htr, hne, hab', hch, hed, hempty, hlt, hnet, hbt, hfind]

theorem reset_signature_check_witness :
    ((isInvalidPage pageOnlyReset).invalid = true) ∧
    isInvalidPage pageOnlyReset =
      { invalid := true,
        reason := some ("HTTP/network error: " ++ "ERR_CONNECTION_RESET") } :=
  ⟨reset_signature_check.1 pageOnlyReset (by decide),
   reset_signature_check.2 pageOnlyReset "https://www.bing.com/x" ""
      (by decide) (by decide) (by decide) (by decide) (by decide) (by decide)
      (by decide) (by decide) (by decide) (by decide)⟩

/-- C3: for a page whose pre-check classifies it invalid, the task body
is never invoked and `validateAndRedirect` returns `false`: with
`closeOnInvalid = true` it logs and closes the page with no navigation;
with `closeOnInvalid = false` it performs exactly one recovery
navigation to the configured base URL with the 15s navigation timeout,
follows it with the 10s page-ready wait when the navigation succeeded,
and returns `false` whether or not the navigation throws; a valid page
yields `true` with no close and no navigation. -/
theorem validateAndRedirect_recovery :
    (∀ (p : Page) (env : Env) (baseURL : String) (b : Bool) (body : List Effect),
      (isInvalidPage p).invalid = true →
      (validateAndRedirect p env baseURL b).1 = false ∧
      Effect.runTaskBody ∉ runWithValidation p env baseURL b body) ∧
    (∀ (p : Page) (env : Env) (baseURL : String),
      (isInvalidPage p).invalid = true →
      validateAndRedirect p env baseURL true =
        (false,
         [Effect.logWarn ("Invalid page detected: " ++ reasonText (isInvalidPage p).reason),
          Effect.closePage]) ∧
      gotoCount (validateAndRedirect p env baseURL true).2 = 0) ∧
    (∀ (p : Page) (env : Env) (baseURL : String),
      (isInvalidPage p).invalid = true →
      (validateAndRedirect p env baseURL false).1 = false ∧
      gotoCount (validateAndRedirect p env baseURL false).2 = 1 ∧
      Effect.goto baseURL 15000 ∈ (validateAndRedirect p env baseURL false).2 ∧
      (env.gotoOutcome = Except.ok () →
        Effect.waitReady 10000 ∈ (validateAndRedirect p env baseURL false).2)) ∧
    (∀ (p : Page) (env : Env) (baseURL : String) (b : Bool),
      (isInvalidPage p).invalid = false →
      validateAndRedirect p env baseURL b = (true, [])) := by
  refine ⟨?_, ?_, ?_, ?_⟩
  · intro p env baseURL b body hinv
    cases b <;> cases hg : env.gotoOutcome <;>
      simp [runWithValidation, validateAndRedirect, hinv, hg, gotoCount]
  · intro p env baseURL hinv
    simp [validateAndRedirect, hinv, gotoCount]
  · intro p env baseURL hinv
    cases hg : env.gotoOutcome <;>
      simp [validateAndRedirect, hinv, hg, gotoCount]
  · intro p env baseURL b hinv
    cases b <;> cases hg : env.gotoOutcome <;>
      simp [validateAndRedirect, hinv, hg]

theorem validateAndRedirect_recovery_witness :
    ((validateAndRedirect pageBlankAllThrow envNavFails "https://rewards.bing.com" false).1 = false ∧
      gotoCount (validateAndRedirect pageBlankAllThrow envNavFails
        "https://rewards.bing.com" false).2 = 1 ∧
      Effect.goto "https://rewards.bing.com" 15000 ∈
        (validateAndRedirect pageBlankAllThrow envNavFails "https://rewards.bing.com" false).2 ∧
      (envNavFails.gotoOutcome = Except.ok () →
        Effect.waitReady 10000 ∈
          (validateAndRedirect pageBlankAllThrow envNavFails "https://rewards.bing.com" false).2)) ∧
    validateAndRedirect pageHealthy envAllOk "https://rewards.bing.com" false = (true, []) :=
  ⟨validateAndRedirect_recovery.2.2.1 pageBlankAllThrow envNavFails
      "https://rewards.bing.com" (by decide),
   validateAndRedirect_recovery.2.2.2 pageHealthy envAllOk
      "https://rewards.bing.com" false (by decide)⟩

/-- Helper: the any-of-containment over the allow-list coincides with
the source's `isBingDomain(url) || isRewardsDomain(url)` disjunction. -/
theorem anyAllowed_eq (u : String) :
    (allowedDomains.any fun d => strContains u d) = (isBingDomain u || isRewardsDomain u) := by
  simp [allowedDomains, isBingDomain, isRewardsDomain, Bool.or_assoc]

/-- C7: for every URL string, `validateActivityDomain` returns a value
(never throws): it succeeds if and only if the URL contains one of the
allow-listed domain substrings; on a mismatch it only logs a warning and
returns `false`; the decision is a pure containment test over
`allowedDomains`, independent of the allow-list order. -/
theorem validateActivityDomain_allowlist :
    (∀ (p : Page) (u : String),
      p.url = Except.ok (some u) →
      ∃ r : Bool × List Effect, validateActivityDomain p = Except.ok r ∧
        r.1 = (allowedDomains.any fun d => strContains u d) ∧
        (r.1 = true ↔ ∃ d ∈ allowedDomains, strContains u d = true) ∧
        (r.1 = false → r.2 = [Effect.logWarn ("Unexpected domain after click: " ++ u)]) ∧
        (r.1 = true → r.2 = [])) ∧
    (∀ (u : String) (l : List String), l.Perm allowedDomains →
      (l.any fun d => strContains u d) = (allowedDomains.any fun d => strContains u d)) := by
  constructor
  · intro p u hu
    cases hd : (isBingDomain u || isRewardsDomain u) with
    | true =>
      refine ⟨(true, []), ?_, ?_, ?_, ?_, ?_⟩
      · unfold validateActivityDomain
        rw [hu]
        simp [hd]
      · rw [anyAllowed_eq, hd]
      · have hany : (allowedDomains.any fun d => strContains u d) = true := by
          rw [anyAllowed_eq, hd]
        simpa using List.any_eq_true.mp hany
      · intro hfalse
        exact absurd hfalse (by simp)
      · intro _
        rfl
    | false =>
      refine ⟨(false, [Effect.logWarn ("Unexpected domain after click: " ++ u)]), ?_, ?_, ?_, ?_, ?_⟩
      · unfold validateActivityDomain
        rw [hu]
        simp [hd]
      · rw [anyAllowed_eq, hd]
      · have hany : (allowedDomains.any fun d => strContains u d) = false := by
          rw [anyAllowed_eq, hd]
        rw [List.any_eq_false] at hany
        constructor
        · intro htrue
          exact absurd htrue (by simp)
        · intro hex
          obtain ⟨d, hdmem, hdc⟩ := hex
          exact absurd hdc (hany d hdmem)
      · intro _
        rfl
      · intro htrue
        exact absurd htrue (by simp)
  · intro u l hperm
    cases h : (allowedDomains.any fun d => strContains u d) with
    | false =>
      rw [List.any_eq_false] at h
      rw [List.any_eq_false]
      intro x hx
      exact h x (hperm.mem_iff.mp hx)
    | true =>
      rw [List.any_eq_true] at h
      rw [List.any_eq_true]
      obtain ⟨x, hx, hfx⟩ := h
      exact ⟨x, hperm.mem_iff.mpr hx, hfx⟩

theorem validateActivityDomain_allowlist_witness :
    ∃ r : Bool × List Effect, validateActivityDomain pageEvilDomain = Except.ok r ∧
      r.1 = (allowedDomains.any fun d => strContains "https://evil.com/" d) ∧
      (r.1 = true ↔ ∃ d ∈ allowedDomains, strContains "https://evil.com/" d = true) ∧
      (r.1 = false →
        r.2 = [Effect.logWarn ("Unexpected domain after click: " ++ "https://evil.com/")]) ∧
      (r.1 = true → r.2 = []) :=
  validateActivityDomain_allowlist.1 pageEvilDomain "https://evil.com/" (by decide)

/-- Helper: substring containment is transitive through an intermediate
string. -/
theorem strContains_trans (h m n : String)
    (hmn : strContains m n = true) (hhm : strContains h m = true) :
    strContains h n = true := by
  rw [strContains_characterization] at hmn hhm ⊢
  exact hmn.trans hhm

/-- C10: the acceptance predicate
`isBingDomain(url) || isRewardsDomain(url)` used by
`validateActivityDomain` equals containment of "bing.com" or
"rewards.microsoft.com": the "rewards.bing.com" disjunct inside
`isRewardsDomain` is redundant, since any URL containing it also
contains "bing.com". -/
theorem domain_predicate_redundancy (url : String) :
    (isBingDomain url || isRewardsDomain url) =
      (strContains url "bing.com" || strContains url "rewards.microsoft.com") := by
  unfold isBingDomain isRewardsDomain
  cases hb : strContains url "bing.com" with
  | true => simp
  | false =>
    have hrb : strContains url "rewards.bing.com" = false := by
      cases hr : strContains url "rewards.bing.com" with
      | false => rfl
      | true =>
        have hc := strContains_trans url "rewards.bing.com" "bing.com" (by decide) hr
        rw [hb] at hc
        exact absurd hc (by simp)
    simp [hrb]

/-- C8: the Discord command surface's permission check allows every
caller when the configured `allowedUserIds` list is absent or empty;
when the list is non-empty, it allows exactly the callers whose user id
equals the string form of a configured entry. -/
theorem hasPermission_policy :
    (∀ userId : String, hasPermission none userId = true) ∧
    (∀ userId : String, hasPermission (some []) userId = true) ∧
    (∀ (ids : List ConfigId) (userId : String), ids ≠ [] →
      (hasPermission (some ids) userId = true ↔ userId ∈ ids.map ConfigId.toJsString)) := by
  refine ⟨fun userId => rfl, fun userId => rfl, ?_⟩
  intro ids userId hne
  have hlen : (ids.length == 0) = false := by
    cases ids with
    | nil => exact absurd rfl hne
    | cons a as => rfl
  unfold hasPermission
  simp [hlen]

theorem hasPermission_policy_witness :
    hasPermission (some [ConfigId.num 123]) "123" = true ∧
    hasPermission none "someone else" = true :=
  ⟨(hasPermission_policy.2.2 [ConfigId.num 123] "123" (by decide)).mpr (by decide),
   hasPermission_policy.1 "someone else"⟩

/-- C9: the accounts listing renders only a redacted projection of each
email — the first two characters of the local part, a "***@" marker and
the domain, or "***@***" when the email does not split into a truthy
local part and domain; the rendered list depends only on the emails
(never on credential fields), and the account data is never mutated
(the renderer is a pure function of its input). -/
theorem handleAccounts_redaction :
    (∀ (email loc domain : String) (rest : List String),
      jsSplit email '@' = loc :: domain :: rest → loc ≠ "" → domain ≠ "" →
      redactEmail email = loc.take 2 ++ "***@" ++ domain) ∧
    (∀ (email loc domain : String) (rest : List String),
      jsSplit email '@' = loc :: domain :: rest → (loc = "" ∨ domain = "") →
      redactEmail email = "***@***") ∧
    (∀ (email loc : String), jsSplit email '@' = [loc] → redactEmail email = "***@***") ∧
    (∀ (accounts : List Account) (f : Account → String),
      renderAccountList (accounts.map fun a => { a with password := f a }) =
        renderAccountList accounts) := by
  refine ⟨?_, ?_, ?_, ?_⟩
  · intro email loc domain rest hsplit hl hd
    unfold redactEmail
    rw [hsplit]
    simp [jsTruthy, hl, hd]
  · intro email loc domain rest hsplit hld
    unfold redactEmail
    rw [hsplit]
    rcases hld with h | h <;> subst h <;> simp [jsTruthy]
  · intro email loc hsplit
    unfold redactEmail
    rw [hsplit]
  · intro accounts f
    unfold renderAccountList
    rw [List.mapIdx_eq_enum_map, List.mapIdx_eq_enum_map, List.enum_map, List.map_map]
    apply List.map_congr_left
    intro x hx
    rcases x with ⟨i, a⟩
    rfl

theorem handleAccounts_redaction_witness :
    redactEmail "johndoe@example.com" = "johndoe".take 2 ++ "***@" ++ "example.com" ∧
    redactEmail "abc" = "***@***" ∧
    renderAccountList [{ email := "ab@cd.com", password := "secret" }] =
      renderAccountList [{ email := "ab@cd.com", password := "hunter2" }] :=
  ⟨handleAccounts_redaction.1 "johndoe@example.com" "johndoe" "example.com" []
      (by decide) (by decide) (by decide),
   handleAccounts_redaction.2.2.1 "abc" "abc" (by decide),
   handleAccounts_redaction.2.2.2 [{ email := "ab@cd.com", password := "hunter2" }]
      (fun _ => "secret")⟩

/-- C1 (modelled from the spec, §4.3: `BotController` is not among the
provided sources): the transition out of `Idle` is the single atomic
serialization point, so any interleaving of two `start()` calls from
`Idle` is one of the two sequential orders; in either order the first
call (with a successful launch) returns `{success := true}` and the
second returns `{success := false, error := "already running"}` while
leaving the state untouched — exactly one call succeeds, and a rejected
call has no side effects. -/
theorem start_mutual_exclusion :
    (∀ (b : Bool) (s : ControllerState), s ≠ ControllerState.Idle →
      ExecutionController.start b s =
        (s, { success := false, error := some "already running" })) ∧
    (∀ b2 : Bool,
      ((ExecutionController.start true ControllerState.Idle).2).success = true ∧
      ((ExecutionController.start true ControllerState.Idle).2).error = none ∧
      (ExecutionController.start b2 (ExecutionController.start true ControllerState.Idle).1).2 =
        { success := false, error := some "already running" } ∧
      (ExecutionController.start b2 (ExecutionController.start true ControllerState.Idle).1).1 =
        (ExecutionController.start true ControllerState.Idle).1) := by
  constructor
  · intro b s hs
    cases s with
    | Idle => exact absurd rfl hs
    | Starting => rfl
    | Running => rfl
    | Stopping => rfl
  · intro b2
    exact ⟨rfl, rfl, rfl, rfl⟩

theorem start_mutual_exclusion_witness :
    ExecutionController.start true ControllerState.Running =
      (ControllerState.Running, { success := false, error := some "already running" }) ∧
    (ExecutionController.start false
        (ExecutionController.start true ControllerState.Idle).1).2 =
      { success := false, error := some "already running" } :=
  ⟨start_mutual_exclusion.1 true ControllerState.Running (by decide),
   (start_mutual_exclusion.2 false).2.2.1⟩
